import Mathlib

/-!
Verification of the command-interpretation core of `assistantMain.py`
(the SAINT personal command agent).

Text is modelled as `List Char` (`Str`), mirroring Python `str` for the
ASCII-centred utterances the grammar handles.  The regex rules of
`parse_nl_to_action` are embedded through a small priority-ordered
backtracking matcher (`RE`): a pattern denotes the list of possible
`(capture, remainder)` outcomes in the exact preference order of the
Python `re` engine (greedy quantifiers longest-first, lazy shortest-first,
alternatives left-to-right), so `matchFirst` returns precisely the match
`re.match` finds.

External collaborators (app launcher, Spotify client, TTS, keyboard,
bookmark file, optional pico LLM) are oracles carried by a `Config`;
every invocation of a side-effecting executor is recorded in an ordered
`List Effect`.  The persisted user profile is the `Profile` structure
(display name plus per-action usage counts); the on-disk conversation
history, which no claim concerns, is not modelled.  The mutual recursion
between `nl_execute_from_text` and `RobotHead.chat_single_answer` in the
source is modelled with explicit fuel: a `none` outcome means the fuel was
exhausted, so an execution that yields `none` for every fuel corresponds
to non-termination (unbounded recursion) of the Python code.
-/

namespace Saint

abbrev Str := List Char

/-- Convert a Lean string literal to the `List Char` text representation. -/
def str (s : String) : Str := s.data

/-- Python `str.strip` whitespace set (space, tab, newline, carriage return,
vertical tab, form feed). -/
def isWs (c : Char) : Bool :=
  c == ' ' || c == '\t' || c == '\n' || c == '\r' ||
  c == Char.ofNat 11 || c == Char.ofNat 12

/-- Lower-case an ASCII letter (Python `str.lower` on the ASCII range). -/
def lowerC (c : Char) : Char :=
  if 65 ≤ c.toNat ∧ c.toNat ≤ 90 then Char.ofNat (c.toNat + 32) else c

/-- Upper-case an ASCII letter (Python `str.upper` on the ASCII range). -/
def upperC (c : Char) : Char :=
  if 97 ≤ c.toNat ∧ c.toNat ≤ 122 then Char.ofNat (c.toNat - 32) else c

def toLower (s : Str) : Str := s.map lowerC

def toUpper (s : Str) : Str := s.map upperC

def trimLeft (s : Str) : Str := s.dropWhile isWs

/-- Drop trailing whitespace. -/
def trimRight : Str → Str
  | [] => []
  | c :: rest =>
    let r := trimRight rest
    if r = [] && isWs c then [] else c :: r

/-- Python `str.strip`. -/
def trim (s : Str) : Str := trimRight (trimLeft s)

/-- `s` starts with `p` (Python `str.startswith`). -/
def startsWithS : Str → Str → Bool
  | _, [] => true
  | [], _ :: _ => false
  | c :: s, p :: ps => c == p && startsWithS s ps

/-- `n` occurs as a contiguous substring of `h` (Python `n in h`). -/
def isSubstr : Str → Str → Bool
  | n, [] => n == []
  | n, c :: rest => startsWithS (c :: rest) n || isSubstr n rest

/-- Python `str.split()` (split on whitespace runs, dropping empties). -/
def pySplitAux : Str → Str → List Str
  | cur, [] => if cur = [] then [] else [cur.reverse]
  | cur, c :: r =>
    if isWs c then
      if cur = [] then pySplitAux [] r else cur.reverse :: pySplitAux [] r
    else pySplitAux (c :: cur) r

def pySplit (s : Str) : List Str := pySplitAux [] s

def digitsToNat (s : Str) : Nat :=
  s.foldl (fun acc c => acc * 10 + (c.toNat - 48)) 0

def natToStr (n : Nat) : Str := Nat.toDigits 10 n

def intToStr (i : Int) : Str :=
  if i < 0 then '-' :: natToStr i.natAbs else natToStr i.toNat

/-!
### A tiny backtracking pattern matcher

`RE α` sends an input to the list of `(capture, remainder)` outcomes of a
pattern, ordered by the preference of the Python `re` engine: sequencing
is the list monad (lexicographic preference), alternatives are tried
left-to-right, greedy quantifiers yield longest-first, lazy ones
shortest-first.  `matchFirst` picks the overall first complete outcome,
which is exactly the match produced by `re.match` (patterns are anchored
at the start; the remainder is unconstrained unless the pattern ends in
`$`, embedded as `reEnd`).
-/

def RE (α : Type) : Type := Str → List (α × Str)

instance : Monad RE where
  pure a := fun s => [(a, s)]
  bind m f := fun s => (m s).flatMap (fun p => f p.1 p.2)

/-- A literal, matched case-sensitively. -/
def reLit (w : Str) : RE Unit := fun s =>
  if startsWithS s w then [((), s.drop w.length)] else []

/-- A literal given in lower case, matched case-insensitively (`re.I`). -/
def reLitCI (w : Str) : RE Unit := fun s =>
  if startsWithS (toLower s) w then [((), s.drop w.length)] else []

/-- Ordered alternation `a|b`. -/
def reAlt {α : Type} (a b : RE α) : RE α := fun s => a s ++ b s

def reAlts {α : Type} (l : List (RE α)) : RE α := fun s =>
  l.flatMap (fun m => m s)

/-- Greedy optional group `(?:...)?`. -/
def reOpt (m : RE Unit) : RE Unit := fun s => m s ++ [((), s)]

/-- Optional single character from a class, greedy (`[..]?`). -/
def reOptC (p : Char → Bool) : RE Unit := fun s =>
  match s with
  | c :: r => if p c then [((), r), ((), s)] else [((), s)]
  | [] => [((), s)]

/-- `$`: succeed only at the end of the input. -/
def reEnd : RE Unit := fun s => if s = [] then [((), s)] else []

/-- Greedy `p+` over a character class, capturing the consumed text;
outcomes longest-first. -/
def rePlusG (p : Char → Bool) : RE Str := fun s =>
  let tk := s.takeWhile p
  (List.range tk.length).map (fun i =>
    let n := tk.length - i
    (tk.take n, s.drop n))

/-- Greedy `p*`, capturing the consumed text; outcomes longest-first. -/
def reStarG (p : Char → Bool) : RE Str := fun s =>
  let tk := s.takeWhile p
  (List.range (tk.length + 1)).map (fun i =>
    let n := tk.length - i
    (tk.take n, s.drop n))

/-- Lazy `p+?`, capturing the consumed text; outcomes shortest-first. -/
def rePlusL (p : Char → Bool) : RE Str := fun s =>
  let tk := s.takeWhile p
  (List.range tk.length).map (fun i => (tk.take (i + 1), s.drop (i + 1)))

/-- Greedy `p{1,k}`, capturing the consumed text; outcomes longest-first. -/
def reRep1 (p : Char → Bool) (k : Nat) : RE Str := fun s =>
  let tk := (s.takeWhile p).take k
  (List.range tk.length).map (fun i =>
    let n := tk.length - i
    (tk.take n, s.drop n))

/-- Discard a capture. -/
def reSkip {α : Type} (m : RE α) : RE Unit := fun s =>
  (m s).map (fun p => ((), p.2))

/-- `\s+`, greedy, capture discarded. -/
def reWs : RE Unit := reSkip (rePlusG isWs)

/-- `\s*`, greedy, capture discarded. -/
def reWsStar : RE Unit := reSkip (reStarG isWs)

/-- `.` of Python `re` without `re.S`: any character but a newline. -/
def dotP (c : Char) : Bool := c != '\n'

/-- First (= preferred) complete match of an anchored pattern, as
`re.match` produces it. -/
def matchFirst {α : Type} (m : RE α) (s : Str) : Option α :=
  (m s).head?.map Prod.fst

/-!
### Actions (`parse_nl_to_action`)

The params dict of a parsed action is embedded per kind.  For `run_shell`
the source builds two different dicts — `{"cmd": cmd.split(), "shell":
False}` for a safe-prefixed command and `{"cmd": cmd, "allowed": False}`
otherwise — so `RunShellParams` keeps all three keys optional, `none`
meaning the key is absent, and `cmd` is either a word list or a raw
string, as in the source.
-/

structure RunShellParams where
  cmd : Sum (List Str) Str
  shell : Option Bool
  allowed : Option Bool
deriving DecidableEq

inductive Action where
  | youtube_search (q : Str)
  | spotify_play (q : Str)
  | spotify_resume
  | spotify_pause
  | spotify_next
  | spotify_previous
  | spotify_seek (offset_seconds : Int)
  | search (q : Str)
  | openA (target : Str)
  | list_bookmarks
  | open_bookmark (q : Str)
  | open_file_vscode (path : Str)
  | open_vscode
  | typeA (text : Str)
  | press (key : Str)
  | click (x y : Nat)
  | tts (text : Str)
  | eye (r g b : Nat)
  | servo_move (name : Str) (deg : Nat)
  | run_shell (ps : RunShellParams)
deriving DecidableEq

/-- The `"action"` string of the parsed dict. -/
def Action.kindStr : Action → Str
  | .youtube_search _ => str "youtube_search"
  | .spotify_play _ => str "spotify_play"
  | .spotify_resume => str "spotify_resume"
  | .spotify_pause => str "spotify_pause"
  | .spotify_next => str "spotify_next"
  | .spotify_previous => str "spotify_previous"
  | .spotify_seek _ => str "spotify_seek"
  | .search _ => str "search"
  | .openA _ => str "open"
  | .list_bookmarks => str "list_bookmarks"
  | .open_bookmark _ => str "open_bookmark"
  | .open_file_vscode _ => str "open_file_vscode"
  | .open_vscode => str "open_vscode"
  | .typeA _ => str "type"
  | .press _ => str "press"
  | .click _ _ => str "click"
  | .tts _ => str "tts"
  | .eye _ _ _ => str "eye"
  | .servo_move _ _ => str "servo_move"
  | .run_shell _ => str "run_shell"

/-- Rule 1, on `tl`: `(?:open|search)\s+(?:youtube\s+and\s+)?(?:for\s+|for:)?(.+)`,
fired only when `"youtube" in tl`. -/
def reYt1 : RE Str := do
  reAlt (reLit (str "open")) (reLit (str "search"))
  reWs
  reOpt (do
    reLit (str "youtube")
    reWs
    reLit (str "and")
    reWs)
  reOpt (reAlt (do reLit (str "for"); reWs) (reLit (str "for:")))
  rePlusG dotP

def pYt1 (tl : Str) : Option Action :=
  if isSubstr (str "youtube") tl then
    (matchFirst reYt1 tl).map (fun q => .youtube_search (trim q))
  else none

/-- Rule 2, on `tl`: `search youtube for (.+)`. -/
def reYt2 : RE Str := do
  reLit (str "search youtube for ")
  rePlusG dotP

def pYt2 (tl : Str) : Option Action :=
  (matchFirst reYt2 tl).map (fun q => .youtube_search (trim q))

/-- Rule 3, on `tl`: `play (.+) on spotify`. -/
def rePlayOn : RE Str := do
  reLit (str "play ")
  let g ← rePlusG dotP
  reLit (str " on spotify")
  pure g

def pPlayOn (tl : Str) : Option Action :=
  (matchFirst rePlayOn tl).map (fun q => .spotify_play (trim q))

/-- Rule 4, on `tl`: `^(play|resume) spotify$` or `tl == "play music"`. -/
def reResume : RE Unit := do
  reAlt (reLit (str "play")) (reLit (str "resume"))
  reLit (str " spotify")
  reEnd

def pResume (tl : Str) : Option Action :=
  if (matchFirst reResume tl).isSome || tl = str "play music" then
    some .spotify_resume
  else none

/-- Rule 5, on `tl`: `^(pause|stop) spotify$`. -/
def rePause : RE Unit := do
  reAlt (reLit (str "pause")) (reLit (str "stop"))
  reLit (str " spotify")
  reEnd

def pPause (tl : Str) : Option Action :=
  (matchFirst rePause tl).map (fun _ => .spotify_pause)

/-- Rule 6, on `tl`: `^(skip|next|next song|next track)$`. -/
def reNext : RE Unit := do
  reAlts [reLit (str "skip"), reLit (str "next"),
    reLit (str "next song"), reLit (str "next track")]
  reEnd

def pNext (tl : Str) : Option Action :=
  (matchFirst reNext tl).map (fun _ => .spotify_next)

/-- Rule 7, on `tl`: `^(previous|prev|previous song|previous track|back)$`. -/
def rePrev : RE Unit := do
  reAlts [reLit (str "previous"), reLit (str "prev"),
    reLit (str "previous song"), reLit (str "previous track"),
    reLit (str "back")]
  reEnd

def pPrev (tl : Str) : Option Action :=
  (matchFirst rePrev tl).map (fun _ => .spotify_previous)

/-- Rule 8, on `tl`: `(rewind|seek back|go back)\s+(\d+)\s*(seconds|secs|s)?`;
the parsed seconds are negated. -/
def reSeek : RE Str := do
  reAlts [reLit (str "rewind"), reLit (str "seek back"), reLit (str "go back")]
  reWs
  let d ← rePlusG Char.isDigit
  reWsStar
  reOpt (reAlts [reLit (str "seconds"), reLit (str "secs"), reLit (str "s")])
  pure d

def pSeek (tl : Str) : Option Action :=
  (matchFirst reSeek tl).map
    (fun d => .spotify_seek (-(Int.ofNat (digitsToNat d))))

/-- Rule 9, on `tl`: `(?:search|google search|search google for)\s+(.+)`. -/
def reSearch : RE Str := do
  reAlts [reLit (str "search"), reLit (str "google search"),
    reLit (str "search google for")]
  reWs
  rePlusG dotP

def pSearch (tl : Str) : Option Action :=
  (matchFirst reSearch tl).map (fun q => .search (trim q))

/-- Rule 10, on `tl`: `open (.+) on google`. -/
def reOpenGoogle : RE Str := do
  reLit (str "open ")
  let g ← rePlusG dotP
  reLit (str " on google")
  pure g

def pOpenGoogle (tl : Str) : Option Action :=
  (matchFirst reOpenGoogle tl).map (fun q => .search (trim q))

/-- Rule 11, on `tl`: `^open youtube$`. -/
def pOpenYt (tl : Str) : Option Action :=
  (matchFirst (do reLit (str "open youtube"); reEnd) tl).map
    (fun _ => .openA (str "https://www.youtube.com"))

/-- Rule 12, on `tl`: `^open spotify$` or `^open spotify web$`. -/
def pOpenSpot (tl : Str) : Option Action :=
  if (matchFirst (do reLit (str "open spotify"); reEnd) tl).isSome
    || (matchFirst (do reLit (str "open spotify web"); reEnd) tl).isSome then
    some (.openA (str "spotify"))
  else none

/-- Rule 13: `"schoology" in tl`. -/
def pSchoology (tl : Str) : Option Action :=
  if isSubstr (str "schoology") tl then
    some (.openA (str "https://app.schoology.com"))
  else none

/-- Rule 14, on `tl`: `(list|show|open) bookmarks?$`. -/
def reListBk : RE Unit := do
  reAlts [reLit (str "list"), reLit (str "show"), reLit (str "open")]
  reLit (str " bookmark")
  reOpt (reLit (str "s"))
  reEnd

def pListBk (tl : Str) : Option Action :=
  (matchFirst reListBk tl).map (fun _ => .list_bookmarks)

def isQuoteC (c : Char) : Bool := c == Char.ofNat 34 || c == Char.ofNat 39

/-- Rule 15, on `t` with `re.I`:
`open (?:my )?bookmark(?: titled)? ['\x22]?(.+?)['\x22]?$`. -/
def reOpenBk : RE Str := do
  reLitCI (str "open ")
  reOpt (reLitCI (str "my "))
  reLitCI (str "bookmark")
  reOpt (reLitCI (str " titled"))
  reLitCI (str " ")
  reOptC isQuoteC
  let g ← rePlusL dotP
  reOptC isQuoteC
  reEnd
  pure g

def pOpenBk (t : Str) : Option Action :=
  (matchFirst reOpenBk t).map (fun q => .open_bookmark (trim q))

/-- Rule 16, on `tl`: `(open|show) (file explorer|explorer|file manager|files)$`. -/
def reExplorer : RE Unit := do
  reAlt (reLit (str "open")) (reLit (str "show"))
  reLit (str " ")
  reAlts [reLit (str "file explorer"), reLit (str "explorer"),
    reLit (str "file manager"), reLit (str "files")]
  reEnd

def pExplorer (tl : Str) : Option Action :=
  (matchFirst reExplorer tl).map (fun _ => .openA (str "file_explorer"))

/-- Rule 17, on `t` with `re.I`:
`open\s+["']?(.+?)["']?\s+(?:on|in|with)\s+vscode$` (quotes as a class). -/
def reFileVscode : RE Str := do
  reLitCI (str "open")
  reWs
  reOptC isQuoteC
  let g ← rePlusL dotP
  reOptC isQuoteC
  reWs
  reAlts [reLitCI (str "on"), reLitCI (str "in"), reLitCI (str "with")]
  reWs
  reLitCI (str "vscode")
  reEnd
  pure g

def pFileVscode (t : Str) : Option Action :=
  (matchFirst reFileVscode t).map (fun p => .open_file_vscode (trim p))

/-- Rule 18, on `tl`: `^(open|launch|start)\s+(vscode|visual studio code)$`. -/
def reVscode : RE Unit := do
  reAlts [reLit (str "open"), reLit (str "launch"), reLit (str "start")]
  reWs
  reAlt (reLit (str "vscode")) (reLit (str "visual studio code"))
  reEnd

def pVscode (tl : Str) : Option Action :=
  (matchFirst reVscode tl).map (fun _ => .open_vscode)

/-- Rule 19, on `t` with `re.I`: `type (?:the )?(.*)`; the capture is kept
verbatim (not stripped). -/
def reType : RE Str := do
  reLitCI (str "type ")
  reOpt (reLitCI (str "the "))
  reStarG dotP

def pType (t : Str) : Option Action :=
  (matchFirst reType t).map (fun g => .typeA g)

/-- Rule 20, on `t` with `re.I`: `press (.+)`. -/
def rePress : RE Str := do
  reLitCI (str "press ")
  rePlusG dotP

def pPress (t : Str) : Option Action :=
  (matchFirst rePress t).map (fun k => .press (trim k))

/-- Rule 21, on `t`, case-sensitive: `click(?: at)? (\d+)\s*,?\s*(\d+)`. -/
def reClick : RE (Str × Str) := do
  reLit (str "click")
  reOpt (reLit (str " at"))
  reLit (str " ")
  let x ← rePlusG Char.isDigit
  reWsStar
  reOptC (fun c => c == ',')
  reWsStar
  let y ← rePlusG Char.isDigit
  pure (x, y)

def pClick (t : Str) : Option Action :=
  (matchFirst reClick t).map
    (fun g => .click (digitsToNat g.1) (digitsToNat g.2))

/-- Rule 22, on `t`, case-sensitive: `(say|speak) (.+)`; the capture is
kept verbatim. -/
def reSay : RE Str := do
  reAlt (reLit (str "say")) (reLit (str "speak"))
  reLit (str " ")
  rePlusG dotP

def pSay (t : Str) : Option Action :=
  (matchFirst reSay t).map (fun g => .tts g)

/-- Rule 23, on `tl`: `(set|change) eyes? to (\d{1,3})\s+(\d{1,3})\s+(\d{1,3})`;
each component is clamped to `[0, 255]`. -/
def reEye : RE (Str × Str × Str) := do
  reAlt (reLit (str "set")) (reLit (str "change"))
  reLit (str " eye")
  reOpt (reLit (str "s"))
  reLit (str " to ")
  let a ← reRep1 Char.isDigit 3
  reWs
  let b ← reRep1 Char.isDigit 3
  reWs
  let c ← reRep1 Char.isDigit 3
  pure (a, b, c)

def pEye (tl : Str) : Option Action :=
  (matchFirst reEye tl).map (fun g =>
    .eye (min (digitsToNat g.1) 255) (min (digitsToNat g.2.1) 255)
      (min (digitsToNat g.2.2) 255))

def isWordC (c : Char) : Bool := c.isAlphanum || c == '_'

/-- Rule 24, on `tl`: `move (\w+) to (\d{1,3})`; the name is upper-cased. -/
def reServo : RE (Str × Str) := do
  reLit (str "move ")
  let w ← rePlusG isWordC
  reLit (str " to ")
  let d ← reRep1 Char.isDigit 3
  pure (w, d)

def pServo (tl : Str) : Option Action :=
  (matchFirst reServo tl).map
    (fun g => .servo_move (toUpper g.1) (digitsToNat g.2))

def SAFE_SHELL_PREFIXES : List Str :=
  [str "echo ", str "dir ", str "ls ", str "ping ", str "whoami"]

/-- Rule 25, on `tl`: `run\s+(.+)`; the stripped command becomes
`{"cmd": cmd.split(), "shell": False}` when it starts with a safe
prefix — note that no `allowed` key is written on this path — and
`{"cmd": cmd, "allowed": False}` otherwise. -/
def reRun : RE Str := do
  reLit (str "run")
  reWs
  rePlusG dotP

def pRun (tl : Str) : Option Action :=
  (matchFirst reRun tl).map (fun g =>
    let cmd := trim g
    if SAFE_SHELL_PREFIXES.any (fun p => startsWithS cmd p) then
      .run_shell ⟨Sum.inl (pySplit cmd), some false, none⟩
    else
      .run_shell ⟨Sum.inr cmd, none, some false⟩)

/-- First-match-wins chaining of two rules. -/
def orE (a b : Option Action) : Option Action :=
  match a with
  | some x => some x
  | none => b

/-- First-match-wins over an ordered rule list. -/
def firstRule : List (Option Action) → Option Action
  | [] => none
  | a :: rest => orE a (firstRule rest)

/-- `parse_nl_to_action` (source lines 885–986): the ordered regex-rule
cascade, first match wins. -/
def parse_nl_to_action (text : Str) : Option Action :=
  let t := trim text
  let tl := trim (toLower t)
  firstRule [pYt1 tl, pYt2 tl, pPlayOn tl, pResume tl, pPause tl,
    pNext tl, pPrev tl, pSeek tl, pSearch tl, pOpenGoogle tl,
    pOpenYt tl, pOpenSpot tl, pSchoology tl, pListBk tl,
    pOpenBk t, pExplorer tl, pFileVscode t, pVscode tl,
    pType t, pPress t, pClick t, pSay t, pEye tl,
    pServo tl, pRun tl]

/-!
### Executor effects

One constructor per side-effecting executor the dispatcher can invoke:
the app launcher (`open_app`), browser search (`web_search`), keyboard
and mouse simulation, TTS, the eye/servo actuators, the restricted shell
runner, and the Spotify playback calls.  A dispatch's effect trace is the
ordered list of the invocations it performed.
-/

inductive Effect where
  | openApp (target : Str)
  | webSearch (url : Str)
  | typeText (s : Str)
  | pressKey (k : Str)
  | ttsSpeak (s : Str)
  | eyeSet (r g b : Nat)
  | servoMove (name : Str) (deg : Nat)
  | runShellCmd (cmd : Sum (List Str) Str)
  | spotPlayFx (q : Str)
  | spotPauseFx
  | spotResumeFx
  | spotNextFx
  | spotPrevFx
  | spotSeekFx (posMs : Nat)
deriving DecidableEq

/-!
### Bookmarks (`find_and_open_bookmark`)

`load_chrome_bookmarks` reads a browser bookmark file; its outcome is
modelled as `Option (List Bookmark)` in the `Config` (`none` = no file
found / unreadable, carrying the error string separately).  Only the
`name` and `url` fields take part in matching, so the `path`/`date_added`
fields of the source records are not modelled.  The source opens the
selected bookmark via `AGENT.open_app(b["url"])`; that call is returned
as an `openApp` effect.
-/

structure Bookmark where
  name : Str
  url : Str
deriving DecidableEq

inductive MatchType where
  | exact_title
  | title_contains
  | url_contains
  | fuzzy
deriving DecidableEq

inductive BkOutcome where
  | found (mt : MatchType) (b : Bookmark)
  | notFound (e : Str)
deriving DecidableEq

/-- `find_and_open_bookmark` (source lines 997–1024), parameterised by the
loaded bookmark list; returns the outcome together with the app-launcher
effects it performs. -/
def find_and_open_bookmark (store : Option (List Bookmark)) (storeErr : Str)
    (query : Str) : BkOutcome × List Effect :=
  match store with
  | none => (.notFound storeErr, [])
  | some bookmarks =>
    let q := trim (toLower query)
    if q = [] then (.notFound (str "empty query"), [])
    else
      match (bookmarks.filter (fun b => toLower b.name == q)).head? with
      | some b => (.found .exact_title b, [.openApp b.url])
      | none =>
        match (bookmarks.filter (fun b => isSubstr q (toLower b.name))).head? with
        | some b => (.found .title_contains b, [.openApp b.url])
        | none =>
          match (bookmarks.filter (fun b => isSubstr q (toLower b.url))).head? with
          | some b => (.found .url_contains b, [.openApp b.url])
          | none =>
            let parts := pySplit q
            match parts.findSome? (fun p =>
                (bookmarks.filter (fun b =>
                  isSubstr p (toLower (b.name ++ [' '] ++ b.url)))).head?) with
            | some b => (.found .fuzzy b, [.openApp b.url])
            | none => (.notFound (str "no match"), [])

/-!
### Name extraction (`RobotHead.try_extract_and_save_name`)

`re.search(r"\b(?:my name is|i am|i'm|call me)\s+([A-Z][a-zA-Z'-]{1,30})\b",
text, flags=re.I)`: scan positions left to right; at a position with a
word boundary try the four alternatives in order (case-insensitively),
then `\s+`, then the name group — a letter followed by a greedy run of
1–30 letters/apostrophes/hyphens, shortened until the trailing `\b`
holds.  The extraction itself is pure; persisting the name into the
profile is `applyName` at the call sites.
-/

def apos : Char := Char.ofNat 39

def isNameC (c : Char) : Bool := c.isAlpha || c == apos || c == '-'

def nameAlts : List Str :=
  [str "my name is", str "i am", ['i', apos, 'm'], str "call me"]

/-- The `([A-Z][a-zA-Z'-]{1,30})\b` group at the current position
(`re.I` makes the leading class any letter). -/
def nameGroup : Str → Option Str
  | [] => none
  | c :: rest =>
    if c.isAlpha then
      let tail := (rest.takeWhile isNameC).take 30
      (List.range tail.length).findSome? (fun i =>
        let n := tail.length - i
        let lastW := match (tail.drop (n - 1)).head? with
          | some d => isWordC d
          | none => false
        let nextW := match (rest.drop n).head? with
          | some d => isWordC d
          | none => false
        if lastW != nextW then some (c :: tail.take n) else none)
    else none

/-- Try the four phrase alternatives at this position. -/
def tryNameAt (s : Str) : Option Str :=
  nameAlts.findSome? (fun alt =>
    if startsWithS (toLower s) alt then
      let rest := s.drop alt.length
      let wsn := (rest.takeWhile isWs).length
      if wsn = 0 then none else nameGroup (rest.drop wsn)
    else none)

/-- `re.search` scan; `prevW` says whether the previous character is a
word character (so a match may start here only if it is not). -/
def searchName : Bool → Str → Option Str
  | _, [] => none
  | prevW, c :: rest =>
    match (if prevW then none else tryNameAt (c :: rest)) with
    | some nm => some nm
    | none => searchName (isWordC c) rest

/-- The pure part of `RobotHead.try_extract_and_save_name` (source lines
374–383): the extracted display name, if any. -/
def try_extract_name (text : Str) : Option Str :=
  if text = [] then none else (searchName false text).map trim

/-!
### Profile, collaborator oracles, config
-/

/-- The persisted profile (`{"name": ..., "action_counts": {...}}`);
`counts` is total with default `0`, matching `ac.get(action_name, 0)`. -/
structure Profile where
  name : Option Str
  counts : Str → Nat

/-- `RobotHead.record_action` (source lines 366–372). -/
def record_action (p : Profile) (k : Str) : Profile :=
  if k = [] then p
  else ⟨p.name, fun s => if s = k then p.counts k + 1 else p.counts s⟩

/-- Persist an extracted name (the save step of
`try_extract_and_save_name`). -/
def applyName (p : Profile) : Option Str → Profile
  | some nm => ⟨some nm, p.counts⟩
  | none => p

/-- A collaborator call outcome: the `{"ok"/"opened"/...}` and
`{"error": ...}` dict shapes collapsed to success-with-info or error. -/
inductive EResult where
  | ok (info : Str)
  | err (msg : Str)
deriving DecidableEq

/-- `SPOT.current_playback()` outcome: an error dict or a playback dict
whose `progress_ms` may be missing. -/
structure Playback where
  error : Option Str
  progress_ms : Option Nat
deriving DecidableEq

/-- The `"result"` payload of a dispatch dict. -/
inductive Payload where
  | exec (r : EResult)
  | errMsg (m : Str)
  | fallbackWeb
  | searchUrl (u : Str)
  | bkList (bs : List Bookmark)
  | bkErr (e : Str)
  | bkOpen (o : BkOutcome)
  | playback (p : Playback)
deriving DecidableEq

/-- The process environment: availability flags and the outcomes of the
external collaborators (modelled as oracles; invoking a side-effecting
one additionally records an `Effect`). -/
structure Config where
  picoAvailable : Bool
  picoGenerate : Str → Option Str
  spotConfigured : Bool
  platformWin : Bool
  platformDarwin : Bool
  bookmarkStore : Option (List Bookmark)
  bookmarkErr : Str
  absPath : Str → Str
  openAppRes : Str → EResult
  runShellRes : Sum (List Str) Str → EResult
  typeRes : Str → EResult
  pressRes : Str → EResult
  ttsRes : Str → EResult
  spotSearchPlayRes : Str → EResult
  spotPauseRes : EResult
  spotResumeRes : EResult
  spotNextRes : EResult
  spotPrevRes : EResult
  spotSeekRes : Nat → EResult
  spotPlayback : Playback

/-!
### Result dicts and assistant messages

`RDict` is the dispatch return dict; `none` in a field means the key is
absent.  Message builders mirror the source f-strings; apostrophes,
quotes and braces are assembled from character constants.
-/

structure RDict where
  action : Option Str := none
  reason : Option Str := none
  response : Option Str := none
  result : Option Payload := none
  error : Option Str := none
  detail : Option Str := none
  assistant : Option Str := none
deriving DecidableEq

def dquo : Char := Char.ofNat 34

def lbr : Char := Char.ofNat 123

def rbr : Char := Char.ofNat 125

/-- Python `str()` of the collapsed collaborator dict (used in the
`f"Could not ... Spotify: {res}"` messages). -/
def pyReprE : EResult → Str
  | .ok _ => [lbr, apos] ++ str "ok" ++ [apos] ++ str ": True" ++ [rbr]
  | .err m => [lbr, apos] ++ str "error" ++ [apos, ':', ' ', apos] ++ m ++ [apos, rbr]

def msgHeardNothing : Str := str "I couldn" ++ [apos] ++ str "t hear anything."

def msgYtQuery : Str := str "What should I search for on YouTube?"

def msgYtSearch (q : Str) : Str :=
  str "Searching YouTube for " ++ [apos] ++ q ++ [apos, '.']

def msgBkCount (n : Nat) : Str := str "Found " ++ natToStr n ++ str " bookmarks."

def msgBkNone (e : Str) : Str := str "No bookmarks: " ++ e

def msgBkOpen (q : Str) : Str :=
  str "Opening bookmark matching " ++ [apos] ++ q ++ [apos, '.']

def msgBkFail (q : Str) : Str :=
  str "Couldn" ++ [apos] ++ str "t find a bookmark for " ++ [apos] ++ q ++ [apos, '.']

def msgSpotWebSearch (q : Str) : Str :=
  str "Opening Spotify web and searching for " ++ [apos] ++ q ++ [apos, '.']

def msgSpotPlay (q : Str) : Str :=
  str "Attempting to play " ++ [apos] ++ q ++ [apos] ++ str " on Spotify."

def msgCantPause : Str :=
  str "Can" ++ [apos] ++ str "t pause — Spotify not configured."

def msgNoPause (r : EResult) : Str := str "Could not pause Spotify: " ++ pyReprE r

def msgNoResume (r : EResult) : Str := str "Could not resume Spotify: " ++ pyReprE r

def msgNoPlayback : Str := str "Couldn" ++ [apos] ++ str "t get current playback."

def msgSeek (off : Int) : Str := str "Seeking " ++ intToStr off ++ str " seconds."

def msgGoogle (q : Str) : Str :=
  str "Searching Google for " ++ [apos] ++ q ++ [apos, '.']

def msgOpening (t : Str) : Str := str "Opening " ++ t ++ str "."

def msgOpenVs (p : Str) : Str := str "Opening " ++ p ++ str " in VSCode."

def msgTyping (t : Str) : Str := str "Typing: " ++ t

def msgPressing (k : Str) : Str := str "Pressing " ++ k ++ str "."

def msgSaying (t : Str) : Str := str "Saying: " ++ t

def msgEye (r g b : Nat) : Str :=
  str "Set eye color to " ++ natToStr r ++ [','] ++ natToStr g ++ [','] ++
    natToStr b ++ str "."

def msgServo (n : Str) (d : Nat) : Str :=
  str "Moving " ++ n ++ str " to " ++ natToStr d ++ str " degrees."

def msgShellBlocked : Str :=
  str "That shell command isn" ++ [apos] ++ str "t allowed for safety."

def msgRanShell (c : Str) : Str := str "Ran shell command: " ++ c

/-- `AttributeError` text for the missing `RobotHead.click` method. -/
def clickErrMsg : Str :=
  [apos] ++ str "RobotHead" ++ [apos] ++ str " object has no attribute " ++
    [apos] ++ str "click" ++ [apos]

def msgErrExec (d : Str) : Str := str "Error executing action: " ++ d

def msgSaySomething : Str :=
  str "Say something and I" ++ [apos] ++ str "ll try to help."

def msgNiceToMeet (n : Str) : Str :=
  str "Nice to meet you, " ++ n ++ str ". What can I do for you?"

def msgImSaint (un : Str) : Str :=
  str "I" ++ [apos] ++ str "m SAINT — your local assistant. " ++
  str "I run on your machine and help with apps, Spotify, files, and small automations. " ++
  str "I" ++ [apos] ++ str "ll call you " ++ un ++ str "."

def msgHey (un : Str) : Str :=
  str "Hey " ++ un ++ str " — tell me what to open or ask me to do something."

def msgIHeard (p : Str) : Str :=
  str "I heard: " ++ [dquo] ++ p ++ [dquo] ++
  str ". I can open apps, control Spotify, search the web, or run safe commands."

def msgTried : Str := str "Tried to run that."

/-!
### URL quoting (`requests.utils.quote`)

Percent-encoding with the default safe set (alphanumerics, `_.-~` and
`/`); one byte per character, faithful for the Latin-1 range the
grammar's inputs live in.
-/

def quoteSafeC (c : Char) : Bool :=
  c.isAlphanum || c == '_' || c == '.' || c == '-' || c == '~' || c == '/'

def hexDigC (n : Nat) : Char :=
  if n < 10 then Char.ofNat (48 + n) else Char.ofNat (55 + n)

def urlQuote (s : Str) : Str :=
  s.flatMap (fun c =>
    if quoteSafeC c then [c]
    else ['%', hexDigC (c.toNat / 16 % 16), hexDigC (c.toNat % 16)])

/-!
### The dispatcher (`nl_execute_from_text`) and the conversational
responder (`RobotHead.chat_single_answer`)
-/

/-- The keys of `ACTION_DEFINITIONS` (source lines 228–249);
`ACTION_WHITELIST` maps each of them to `True`. -/
def ACTION_KEYS : List Str :=
  [str "open", str "search", str "youtube_search", str "open_file_vscode",
   str "open_vscode", str "type", str "press", str "click", str "tts",
   str "eye", str "servo_move", str "run_shell", str "list_bookmarks",
   str "open_bookmark", str "spotify_play", str "spotify_pause",
   str "spotify_resume", str "spotify_next", str "spotify_previous",
   str "spotify_seek"]

/-- `ACTION_WHITELIST.get(action, False)` (source line 991). -/
def whitelist_get (k : Str) : Bool := ACTION_KEYS.contains k

/-- `action == "run_shell" and not parsed['params'].get("allowed", False)`
(source line 1038). -/
def Action.isRunShellBlocked : Action → Bool
  | .run_shell ps => !(ps.allowed.getD false)
  | _ => false

/-- Python's `a or b or "Tried to run that."` over the dict gets (empty
strings and missing keys are falsy). -/
def truthyS : Option Str → Option Str
  | some s => if s = [] then none else some s
  | none => none

def pickReply (res : RDict) : Str :=
  match truthyS res.assistant with
  | some a => a
  | none =>
    match truthyS res.response with
    | some r => r
    | none => msgTried

def whoAreYouQ (pl : Str) : Bool :=
  [str "who are you", str "what are you", str "what is your name"].any
    (fun g => isSubstr g pl)

def greetQ (pl : Str) : Bool :=
  [str "hello", str "hi", str "hey"].any (fun g => isSubstr g pl)

/-- The rule-based fallback block of `RobotHead.chat_single_answer`
(source lines 582–603): name acknowledgement, self-introduction,
greeting, the `open `/`launch `/`start ` branch that re-enters
`nl_execute_from_text` (and then re-records the returned action kind),
and the default echo reply. -/
def chat_rule_based
    (recurse : Profile → Str → Option (RDict × Profile × List Effect))
    (prof1 : Profile) (nameOpt : Option Str) (prompt : Str) :
    Option (Str × Profile × List Effect) :=
  if nameOpt.isSome then
    some (msgNiceToMeet (nameOpt.getD []), prof1, [])
  else if whoAreYouQ (toLower (trim prompt)) then
    some (msgImSaint (prof1.name.getD (str "friend")), prof1, [])
  else if greetQ (toLower (trim prompt)) then
    some (msgHey (prof1.name.getD (str "there")), prof1, [])
  else if startsWithS (toLower (trim prompt)) (str "open ")
      || startsWithS (toLower (trim prompt)) (str "launch ")
      || startsWithS (toLower (trim prompt)) (str "start ") then
    match recurse prof1 (trim prompt) with
    | none => none
    | some (res, prof2, fx) =>
      let prof3 := match res.action with
        | some k => if k = [] then prof2 else record_action prof2 k
        | none => prof2
      some (pickReply res, prof3, fx)
  else some (msgIHeard (trim prompt), prof1, [])

/-- `RobotHead.chat_single_answer` (source lines 560–605), parameterised
by the recursive call it makes into `nl_execute_from_text`.  The
conversation history (appended and saved around the reply) is persisted
chat-log I/O that no result field depends on and is not modelled; the
optional pico LLM is the `picoGenerate` oracle (abstracting the
history-laden prompt the source builds for it).  Returns `none` only if
the recursive call exhausts its fuel. -/
def chat_single_answer (cfg : Config)
    (recurse : Profile → Str → Option (RDict × Profile × List Effect))
    (prof : Profile) (prompt : Str) : Option (Str × Profile × List Effect) :=
  if prompt = [] then some (msgSaySomething, prof, [])
  else
    let nameOpt := try_extract_name prompt
    let prof1 := applyName prof nameOpt
    if cfg.picoAvailable then
      match cfg.picoGenerate prompt with
      | some t =>
        if t = [] then chat_rule_based recurse prof1 nameOpt prompt
        else some (trim t, prof1, [])
      | none => chat_rule_based recurse prof1 nameOpt prompt
    else chat_rule_based recurse prof1 nameOpt prompt

/-- The executor branches of `nl_execute_from_text` (the body of the
`try:` block, source lines 1042–1206).  The `click` branch reproduces
the combined behaviour of `AGENT.click(x,y)` — a method `RobotHead`
does not define, so the call raises `AttributeError` — and the
`except Exception` handler at line 1207 that converts it into the
execution-error dict; the click executor is never reached and
`record_action` is not called.  All other branches return normally. -/
def exec_action (cfg : Config) (prof : Profile) (a : Action) :
    RDict × Profile × List Effect :=
  match a with
  | .youtube_search q =>
    if q = [] then
      ({action := some (str "youtube_search"),
        result := some (.errMsg (str "query required")),
        assistant := some msgYtQuery}, prof, [])
    else
      let url := str "https://www.youtube.com/results?search_query=" ++ urlQuote q
      ({action := some (str "youtube_search"),
        result := some (.exec (cfg.openAppRes url)),
        assistant := some (msgYtSearch q)},
       record_action prof (str "youtube_search"), [.openApp url])
  | .list_bookmarks =>
    match cfg.bookmarkStore with
    | some bs =>
      ({action := some (str "list_bookmarks"), result := some (.bkList bs),
        assistant := some (msgBkCount bs.length)},
       record_action prof (str "list_bookmarks"), [])
    | none =>
      ({action := some (str "list_bookmarks"),
        result := some (.bkErr cfg.bookmarkErr),
        assistant := some (msgBkNone cfg.bookmarkErr)},
       record_action prof (str "list_bookmarks"), [])
  | .open_bookmark q =>
    let out := find_and_open_bookmark cfg.bookmarkStore cfg.bookmarkErr q
    let assistant := match out.1 with
      | .found _ _ => msgBkOpen q
      | .notFound _ => msgBkFail q
    ({action := some (str "open_bookmark"), result := some (.bkOpen out.1),
      assistant := some assistant},
     record_action prof (str "open_bookmark"), out.2)
  | .spotify_play q =>
    if cfg.spotConfigured then
      ({action := some (str "spotify_play"),
        result := some (.exec (cfg.spotSearchPlayRes q)),
        assistant := some (msgSpotPlay q)},
       record_action prof (str "spotify_play"), [.spotPlayFx q])
    else
      let url := str "https://open.spotify.com/search/" ++ urlQuote q
      ({action := some (str "spotify_play"), result := some .fallbackWeb,
        assistant := some (msgSpotWebSearch q)},
       record_action prof (str "spotify_play"), [.openApp url])
  | .spotify_pause =>
    if cfg.spotConfigured then
      let res := cfg.spotPauseRes
      let assistant := match res with
        | .ok _ => str "Pausing Spotify."
        | .err _ => msgNoPause res
      ({action := some (str "spotify_pause"), result := some (.exec res),
        assistant := some assistant},
       record_action prof (str "spotify_pause"), [.spotPauseFx])
    else
      ({action := some (str "spotify_pause"),
        result := some (.errMsg (str "spotify not configured")),
        assistant := some msgCantPause}, prof,
       [.openApp (str "https://open.spotify.com")])
  | .spotify_resume =>
    if cfg.spotConfigured then
      let res := cfg.spotResumeRes
      let assistant := match res with
        | .ok _ => str "Resuming Spotify."
        | .err _ => msgNoResume res
      ({action := some (str "spotify_resume"), result := some (.exec res),
        assistant := some assistant},
       record_action prof (str "spotify_resume"), [.spotResumeFx])
    else
      ({action := some (str "spotify_resume"),
        result := some (.errMsg (str "spotify not configured")),
        assistant := some (str "Opening Spotify web.")}, prof,
       [.openApp (str "https://open.spotify.com")])
  | .spotify_next =>
    if cfg.spotConfigured then
      ({action := some (str "spotify_next"),
        result := some (.exec cfg.spotNextRes),
        assistant := some (str "Skipping to next track.")},
       record_action prof (str "spotify_next"), [.spotNextFx])
    else
      ({action := some (str "spotify_next"),
        result := some (.errMsg (str "spotify not configured")),
        assistant := some (str "Spotify not configured.")}, prof, [])
  | .spotify_previous =>
    if cfg.spotConfigured then
      ({action := some (str "spotify_previous"),
        result := some (.exec cfg.spotPrevRes),
        assistant := some (str "Going to previous track.")},
       record_action prof (str "spotify_previous"), [.spotPrevFx])
    else
      ({action := some (str "spotify_previous"),
        result := some (.errMsg (str "spotify not configured")),
        assistant := some (str "Spotify not configured.")}, prof, [])
  | .spotify_seek off =>
    if cfg.spotConfigured then
      let play := cfg.spotPlayback
      if (match play.error with | some e => e ≠ [] | none => False : Bool) then
        ({action := some (str "spotify_seek"), result := some (.playback play),
          assistant := some msgNoPlayback}, prof, [])
      else
        let progress := play.progress_ms.getD 0
        let newpos := (max 0 (Int.ofNat progress + off * 1000)).toNat
        ({action := some (str "spotify_seek"),
          result := some (.exec (cfg.spotSeekRes newpos)),
          assistant := some (msgSeek off)},
         record_action prof (str "spotify_seek"), [.spotSeekFx newpos])
    else
      ({action := some (str "spotify_seek"),
        result := some (.errMsg (str "spotify not configured")),
        assistant := some (str "Spotify not configured.")}, prof, [])
  | .search q =>
    let url := str "https://www.google.com/search?q=" ++ urlQuote q
    ({action := some (str "search"), result := some (.searchUrl url),
      assistant := some (msgGoogle q)},
     record_action prof (str "search"), [.webSearch url])
  | .openA tgt =>
    if tgt = str "file_explorer" || startsWithS (toLower tgt) (str "explorer") then
      if cfg.platformWin then
        ({action := some (str "open"),
          result := some (.exec (cfg.openAppRes (str "explorer"))),
          assistant := some (str "Opening File Explorer.")},
         record_action prof (str "open"), [.openApp (str "explorer")])
      else if cfg.platformDarwin then
        ({action := some (str "open"),
          result := some (.exec (cfg.openAppRes (str "open ."))),
          assistant := some (str "Opening Finder.")},
         record_action prof (str "open"), [.openApp (str "open .")])
      else
        ({action := some (str "open"),
          result := some (.exec (cfg.openAppRes (str "xdg-open ."))),
          assistant := some (str "Opening file manager.")},
         record_action prof (str "open"), [.openApp (str "xdg-open .")])
    else if (toLower tgt = str "spotify" || toLower tgt = str "spotify web"
        || toLower tgt = str "open spotify") then
      ({action := some (str "open"),
        result := some (.exec (cfg.openAppRes (str "spotify"))),
        assistant := some (str "Opening Spotify.")},
       record_action prof (str "open"), [.openApp (str "spotify")])
    else
      ({action := some (str "open"),
        result := some (.exec (cfg.openAppRes tgt)),
        assistant := some (msgOpening tgt)},
       record_action prof (str "open"), [.openApp tgt])
  | .open_vscode =>
    ({action := some (str "open_vscode"),
      result := some (.exec (cfg.openAppRes (str "code"))),
      assistant := some (str "Opening Visual Studio Code.")},
     record_action prof (str "open_vscode"), [.openApp (str "code")])
  | .open_file_vscode rawpath =>
    let p := cfg.absPath rawpath
    let cmd := str "code " ++ [dquo] ++ p ++ [dquo]
    ({action := some (str "open_file_vscode"),
      result := some (.exec (cfg.openAppRes cmd)),
      assistant := some (msgOpenVs p)},
     record_action prof (str "open_file_vscode"), [.openApp cmd])
  | .typeA textp =>
    ({action := some (str "type"), result := some (.exec (cfg.typeRes textp)),
      assistant := some (msgTyping textp)},
     record_action prof (str "type"), [.typeText textp])
  | .press key =>
    ({action := some (str "press"), result := some (.exec (cfg.pressRes key)),
      assistant := some (msgPressing key)},
     record_action prof (str "press"), [.pressKey key])
  | .click _ _ =>
    ({error := some (str "execution error"), detail := some clickErrMsg,
      assistant := some (msgErrExec clickErrMsg)}, prof, [])
  | .tts txt =>
    ({action := some (str "tts"), result := some (.exec (cfg.ttsRes txt)),
      assistant := some (msgSaying txt)},
     record_action prof (str "tts"), [.ttsSpeak txt])
  | .eye r g b =>
    ({action := some (str "eye"), result := some (.exec (.ok (str ""))),
      assistant := some (msgEye r g b)},
     record_action prof (str "eye"), [.eyeSet r g b])
  | .servo_move nm deg =>
    ({action := some (str "servo_move"), result := some (.exec (.ok (str ""))),
      assistant := some (msgServo nm deg)},
     record_action prof (str "servo_move"), [.servoMove nm deg])
  | .run_shell ps =>
    let blocked := match ps.cmd with
      | Sum.inr c => !(SAFE_SHELL_PREFIXES.any (fun p => startsWithS c p))
      | Sum.inl _ => false
    if blocked then
      ({action := some (str "run_shell"),
        result := some (.errMsg (str "not allowed")),
        assistant := some msgShellBlocked}, prof, [])
    else
      let rendered := match ps.cmd with
        | Sum.inl l => (l.intersperse (str " ")).flatten
        | Sum.inr c => c
      ({action := some (str "run_shell"),
        result := some (.exec (cfg.runShellRes ps.cmd)),
        assistant := some (msgRanShell rendered)},
       record_action prof (str "run_shell"), [.runShellCmd ps.cmd])

/-- `nl_execute_from_text` minus the recursion (source lines 1026–1209),
parameterised by the conversational responder. -/
def nl_execute_core (cfg : Config)
    (chat : Profile → Str → Option (Str × Profile × List Effect))
    (prof : Profile) (text0 : Str) : Option (RDict × Profile × List Effect) :=
  let text := trim text0
  if text = [] then
    some ({error := some (str "text required"),
           assistant := some msgHeardNothing}, prof, [])
  else
    match parse_nl_to_action text with
    | none =>
      match chat prof text with
      | none => none
      | some (r, p, fx) =>
        some ({action := some (str "chat"), response := some r,
               assistant := some r}, p, fx)
    | some a =>
      if whitelist_get a.kindStr = false then
        match chat prof text with
        | none => none
        | some (r, p, fx) =>
          some ({action := some (str "chat_fallback"),
                 reason := some (str "not_whitelisted"), response := some r,
                 assistant := some r}, p, fx)
      else if a.isRunShellBlocked then
        match chat prof text with
        | none => none
        | some (r, p, fx) =>
          some ({action := some (str "chat_fallback"),
                 reason := some (str "unsafe_shell"), response := some r,
                 assistant := some r}, p, fx)
      else some (exec_action cfg prof a)

/-- `nl_execute_from_text` with fuel bounding the mutual recursion with
`chat_single_answer`; `none` means the fuel ran out, so a `none` result
at every fuel is a non-terminating execution of the source. -/
def nl_execute_from_text : Nat → Config → Profile → Str →
    Option (RDict × Profile × List Effect)
  | 0, _, _, _ => none
  | Nat.succ n, cfg, prof, text =>
    nl_execute_core cfg
      (chat_single_answer cfg (nl_execute_from_text n cfg)) prof text

/-- The voice-capture dispatch path (source lines 1399–1400 and
1446–1447): the loop runs `try_extract_and_save_name` on the captured
text and then dispatches it. -/
def voice_dispatch (n : Nat) (cfg : Config) (prof : Profile) (txt : Str) :
    Option (RDict × Profile × List Effect) :=
  nl_execute_from_text n cfg (applyName prof (try_extract_name txt)) txt

/-!
### A concrete environment for witnesses and counterexamples

No pico LLM, Spotify not configured, no bookmark file, a Linux platform,
and collaborators that succeed on every call.
-/

def cfgD : Config where
  picoAvailable := false
  picoGenerate := fun _ => none
  spotConfigured := false
  platformWin := false
  platformDarwin := false
  bookmarkStore := none
  bookmarkErr := str "No bookmark file found. Set CHROME_BOOKMARKS_PATH if needed."
  absPath := id
  openAppRes := fun t => .ok t
  runShellRes := fun _ => .ok (str "")
  typeRes := fun _ => .ok (str "")
  pressRes := fun _ => .ok (str "")
  ttsRes := fun _ => .ok (str "")
  spotSearchPlayRes := fun _ => .ok (str "")
  spotPauseRes := .ok (str "")
  spotResumeRes := .ok (str "")
  spotNextRes := .ok (str "")
  spotPrevRes := .ok (str "")
  spotSeekRes := fun _ => .ok (str "")
  spotPlayback := ⟨none, none⟩

/-- A fresh profile: no name, all counts zero. -/
def profD : Profile := ⟨none, fun _ => 0⟩

/-!
### Supporting lemmas
-/

theorem trimLeft_idem (s : Str) : trimLeft (trimLeft s) = trimLeft s := by
  induction s with
  | nil => rfl
  | cons c r ih =>
    by_cases h : isWs c = true
    · simpa [trimLeft, List.dropWhile, h] using ih
    · simp [trimLeft, List.dropWhile, h]

theorem trimRight_idem (s : Str) : trimRight (trimRight s) = trimRight s := by
  induction s with
  | nil => rfl
  | cons c r ih =>
    by_cases h1 : trimRight r = [] <;> by_cases h2 : isWs c = true
    · simp [trimRight, h1, h2]
    · simp [trimRight, h1, h2, ih]
    · simp [trimRight, h1, h2, ih]
    · simp [trimRight, h1, h2, ih]

theorem trimLeft_of_head_not_ws (c : Char) (r : Str) (h : isWs c = false) :
    trimLeft (c :: r) = c :: r := by
  simp [trimLeft, List.dropWhile, h]

theorem trimRight_cons_not_ws (c : Char) (r : Str) (h : isWs c = false) :
    trimRight (c :: r) = c :: trimRight r := by
  rw [trimRight]
  simp [h]

theorem trimLeft_length_le (s : Str) : (trimLeft s).length ≤ s.length := by
  induction s with
  | nil => simp [trimLeft]
  | cons c r ih =>
    by_cases h : isWs c = true
    · have he : trimLeft (c :: r) = trimLeft r := by
        simp [trimLeft, List.dropWhile, h]
      rw [he]
      simp only [List.length_cons]
      omega
    · simp [trimLeft, List.dropWhile, h]

/-- If a list has no leading whitespace, trimming the right keeps it so. -/
theorem trimLeft_trimRight (s : Str) (h : trimLeft s = s) :
    trimLeft (trimRight s) = trimRight s := by
  cases s with
  | nil => rfl
  | cons c r =>
    by_cases hc : isWs c = true
    · exfalso
      have hlen : (trimLeft (c :: r)).length ≤ r.length := by
        have he : trimLeft (c :: r) = trimLeft r := by
          simp [trimLeft, List.dropWhile, hc]
        rw [he]
        exact trimLeft_length_le r
      rw [h] at hlen
      simp at hlen
    · rw [trimRight_cons_not_ws c r (by simpa using hc)]
      exact trimLeft_of_head_not_ws c _ (by simpa using hc)

theorem trim_trim (s : Str) : trim (trim s) = trim s := by
  unfold trim
  rw [trimLeft_trimRight (trimLeft s) (trimLeft_idem s), trimRight_idem]

theorem parse_trim (s : Str) :
    parse_nl_to_action (trim s) = parse_nl_to_action s := by
  unfold parse_nl_to_action
  rw [trim_trim]

/-- Trimming a string whose head is not whitespace keeps that head. -/
theorem trim_cons_not_ws (c : Char) (r : Str) (h : isWs c = false) :
    trim (c :: r) = c :: trimRight r := by
  unfold trim
  rw [trimLeft_of_head_not_ws c r h, trimRight_cons_not_ws c r h]

theorem head?_filter {α : Type} (p : α → Bool) (l : List α) :
    (l.filter p).head? = l.find? p := by
  induction l with
  | nil => rfl
  | cons a r ih =>
    by_cases h : p a = true
    · simp [List.filter, List.find?, h]
    · simp only [List.filter, List.find?, h]
      simp [ih]

theorem orE_eq_some {a b : Option Action} {v : Action} (h : orE a b = some v) :
    a = some v ∨ b = some v := by
  cases a with
  | none => right; exact h
  | some x => left; exact h

theorem RE_bind_apply {α β : Type} (m : RE α) (f : α → RE β) (s : Str) :
    (m >>= f) s = (m s).flatMap (fun p => f p.1 p.2) := rfl

theorem reRun_nil (s : Str) (hs : startsWithS s (str "run") = false) :
    reRun s = [] := by
  have h1 : reLit (str "run") s = [] := by
    unfold reLit
    simp [hs]
  show (reLit (str "run") s).flatMap _ = []
  rw [h1]
  rfl

/-- Only the final `run\s+(.+)` rule of the cascade produces a
`run_shell` action, so a `run_shell` parse means the lower-cased trimmed
input starts with `run`. -/
theorem parse_run_shell_inv (u : Str) (ps : RunShellParams)
    (h : parse_nl_to_action u = some (.run_shell ps)) :
    startsWithS (trim (toLower (trim u))) (str "run") = true := by
  unfold parse_nl_to_action at h
  simp only [firstRule] at h
  rcases orE_eq_some h with h | h
  · simp [pYt1] at h
  rcases orE_eq_some h with h | h
  · simp [pYt2] at h
  rcases orE_eq_some h with h | h
  · simp [pPlayOn] at h
  rcases orE_eq_some h with h | h
  · simp [pResume] at h
  rcases orE_eq_some h with h | h
  · simp [pPause] at h
  rcases orE_eq_some h with h | h
  · simp [pNext] at h
  rcases orE_eq_some h with h | h
  · simp [pPrev] at h
  rcases orE_eq_some h with h | h
  · simp [pSeek] at h
  rcases orE_eq_some h with h | h
  · simp [pSearch] at h
  rcases orE_eq_some h with h | h
  · simp [pOpenGoogle] at h
  rcases orE_eq_some h with h | h
  · simp [pOpenYt] at h
  rcases orE_eq_some h with h | h
  · simp [pOpenSpot] at h
  rcases orE_eq_some h with h | h
  · simp [pSchoology] at h
  rcases orE_eq_some h with h | h
  · simp [pListBk] at h
  rcases orE_eq_some h with h | h
  · simp [pOpenBk] at h
  rcases orE_eq_some h with h | h
  · simp [pExplorer] at h
  rcases orE_eq_some h with h | h
  · simp [pFileVscode] at h
  rcases orE_eq_some h with h | h
  · simp [pVscode] at h
  rcases orE_eq_some h with h | h
  · simp [pType] at h
  rcases orE_eq_some h with h | h
  · simp [pPress] at h
  rcases orE_eq_some h with h | h
  · simp [pClick] at h
  rcases orE_eq_some h with h | h
  · simp [pSay] at h
  rcases orE_eq_some h with h | h
  · simp [pEye] at h
  rcases orE_eq_some h with h | h
  · simp [pServo] at h
  rcases orE_eq_some h with h | h
  · by_cases hs : startsWithS (trim (toLower (trim u))) (str "run") = true
    · exact hs
    · exfalso
      rw [pRun, matchFirst,
        reRun_nil _ (by simpa using hs)] at h
      simp at h
  · simp [firstRule] at h

/-- A string whose trim starts with `run` cannot itself start with
`open `, `launch ` or `start `. -/
theorem not_ols_of_trim_run (s : Str)
    (h : startsWithS (trim s) (str "run") = true) :
    startsWithS s (str "open ") = false
      ∧ startsWithS s (str "launch ") = false
      ∧ startsWithS s (str "start ") = false := by
  cases s with
  | nil => simp [startsWithS]
  | cons c r =>
    by_cases hc : isWs c = true
    · have ho : c ≠ 'o' := fun he => by rw [he] at hc; exact absurd hc (by decide)
      have hl : c ≠ 'l' := fun he => by rw [he] at hc; exact absurd hc (by decide)
      have hs : c ≠ 's' := fun he => by rw [he] at hc; exact absurd hc (by decide)
      refine ⟨?_, ?_, ?_⟩ <;> simp [str, startsWithS, ho, hl, hs]
    · rw [trim_cons_not_ws c r (by simpa using hc)] at h
      have hr : c = 'r' := by
        have := h
        simp [str, startsWithS] at this
        exact this.1
      subst hr
      refine ⟨?_, ?_, ?_⟩ <;> simp [str, startsWithS]

/-- Whenever the prompt does not start with `open `/`launch `/`start `
(after lower-casing its trim), `chat_rule_based` answers without
re-entering the dispatcher: the profile it returns is exactly `prof1`
and no executor effect is produced. -/
theorem chat_rule_based_no_rec
    (recurse : Profile → Str → Option (RDict × Profile × List Effect))
    (prof1 : Profile) (nameOpt : Option Str) (prompt : Str)
    (h1 : startsWithS (toLower (trim prompt)) (str "open ") = false)
    (h2 : startsWithS (toLower (trim prompt)) (str "launch ") = false)
    (h3 : startsWithS (toLower (trim prompt)) (str "start ") = false) :
    ∃ r, chat_rule_based recurse prof1 nameOpt prompt = some (r, prof1, []) := by
  unfold chat_rule_based
  rw [h1, h2, h3]
  by_cases hn : nameOpt.isSome
  · rw [if_pos hn]
    exact ⟨_, rfl⟩
  · rw [if_neg hn]
    by_cases hw : whoAreYouQ (toLower (trim prompt)) = true
    · rw [if_pos hw]
      exact ⟨_, rfl⟩
    · rw [if_neg hw]
      by_cases hg : greetQ (toLower (trim prompt)) = true
      · rw [if_pos hg]
        exact ⟨_, rfl⟩
      · rw [if_neg hg]
        simp only [Bool.or_false, Bool.false_eq_true, if_false]
        exact ⟨_, rfl⟩

/-- Same, one level up: `chat_single_answer` on a non-empty prompt that
does not start with `open `/`launch `/`start ` always answers, persists
exactly the extracted name, and performs no executor effect. -/
theorem chat_single_answer_no_rec (cfg : Config)
    (recurse : Profile → Str → Option (RDict × Profile × List Effect))
    (prof : Profile) (prompt : Str) (hne : prompt ≠ [])
    (h1 : startsWithS (toLower (trim prompt)) (str "open ") = false)
    (h2 : startsWithS (toLower (trim prompt)) (str "launch ") = false)
    (h3 : startsWithS (toLower (trim prompt)) (str "start ") = false) :
    ∃ r, chat_single_answer cfg recurse prof prompt =
      some (r, applyName prof (try_extract_name prompt), []) := by
  unfold chat_single_answer
  rw [if_neg hne]
  by_cases hp : cfg.picoAvailable
  · rw [if_pos hp]
    cases hg : cfg.picoGenerate prompt with
    | none =>
      exact chat_rule_based_no_rec recurse _ _ prompt h1 h2 h3
    | some t =>
      dsimp only
      by_cases ht : t = []
      · rw [if_pos ht]
        exact chat_rule_based_no_rec recurse _ _ prompt h1 h2 h3
      · rw [if_neg ht]
        exact ⟨_, rfl⟩
  · rw [if_neg hp]
    exact chat_rule_based_no_rec recurse _ _ prompt h1 h2 h3

/-- Every kind the grammar can produce is whitelisted: `ACTION_WHITELIST`
maps every `ACTION_DEFINITIONS` key to `True` and the grammar only emits
those kinds, so the `not_whitelisted` fallback is unreachable from
`nl_execute_from_text`. -/
theorem kind_whitelisted (a : Action) : whitelist_get a.kindStr = true := by
  cases a <;> simp only [Action.kindStr] <;> decide

theorem parse_nil : parse_nl_to_action [] = none := by decide

/-!
### Claim theorems
-/

/-- Claim C1 (code bug).  On `run echo hi` — a command with the safe
prefix `echo ` — the grammar returns the params
`{"cmd": ["echo","hi"], "shell": False}` with **no** `allowed` key (so
never `allowed=true`), and because the dispatcher tests
`params.get("allowed", False)`, the dispatch lands in the
`chat_fallback`/`unsafe_shell` branch with no executor effect instead of
executing the shell command: the claimed `allowed=true` iff safe-prefix
equivalence, and execution of safe-prefixed commands, both fail. -/
theorem c1_safe_run_lacks_allowed_and_is_blocked :
    parse_nl_to_action (str "run echo hi") =
      some (.run_shell ⟨Sum.inl [str "echo", str "hi"], some false, none⟩)
    ∧ SAFE_SHELL_PREFIXES.any (fun p => startsWithS (str "echo hi") p) = true
    ∧ (nl_execute_from_text 1 cfgD profD (str "run echo hi")).map
        (fun x => (x.1.action, x.1.reason, x.2.2)) =
      some (some (str "chat_fallback"), some (str "unsafe_shell"), []) := by
  exact ⟨rfl, rfl, rfl⟩

/-- Claim C5 (code bug).  On `search youtube for lofi beats` the generic
first rule (`(?:open|search)\s+...(.+)` guarded by `"youtube" in tl`)
fires before the dedicated `search youtube for (.+)` rule — which is
thereby unreachable — so the query is `youtube for lofi beats`, not the
`lofi beats` the spec scenario expects, and the spoken summary quotes the
wrong query. -/
theorem c5_search_youtube_scenario_bug :
    parse_nl_to_action (str "search youtube for lofi beats") =
      some (.youtube_search (str "youtube for lofi beats"))
    ∧ (nl_execute_from_text 1 cfgD profD (str "search youtube for lofi beats")).map
        (fun x => (x.1.action, x.1.assistant)) =
      some (some (str "youtube_search"),
        some (msgYtSearch (str "youtube for lofi beats")))
    ∧ msgYtSearch (str "youtube for lofi beats") ≠ msgYtSearch (str "lofi beats") := by
  exact ⟨rfl, rfl, by decide⟩

/-- Claim C9 (code bug).  `open youtube` is captured by the same generic
first rule (the dedicated `^open youtube$` → `open` rule is shadowed), so
dispatching it twice yields two successful `youtube_search` Results and
increments `action_counts["youtube_search"]` by 2 while
`action_counts["open"]` stays unchanged — not the `open` Results and
`open`-count increment the claim states.  The launcher oracle in `cfgD`
succeeds on every call. -/
theorem c9_open_youtube_twice_counts_youtube_search :
    ∃ R1 P1 FX1 R2 P2 FX2,
      nl_execute_from_text 1 cfgD profD (str "open youtube") = some (R1, P1, FX1)
      ∧ nl_execute_from_text 1 cfgD P1 (str "open youtube") = some (R2, P2, FX2)
      ∧ R1.error = none ∧ R2.error = none
      ∧ R1.action = some (str "youtube_search")
      ∧ R2.action = some (str "youtube_search")
      ∧ P2.counts (str "open") = profD.counts (str "open")
      ∧ P2.counts (str "youtube_search") =
          profD.counts (str "youtube_search") + 2 := by
  exact ⟨_, _, _, _, _, _, rfl, rfl, rfl, rfl, rfl, rfl, rfl, rfl⟩

/-- Claim C4 counterexample.  `Say hi` and `say hi` are equal up to
letter case after trimming, yet the grammar parses the latter to a `tts`
action and the former to `none`, because the `(say|speak) (.+)` rule is
matched case-sensitively against the original text: `parse_nl_to_action`
is not case-insensitive. -/
theorem c4_case_sensitivity_counterexample :
    toLower (trim (str "Say hi")) = toLower (trim (str "say hi"))
    ∧ parse_nl_to_action (str "Say hi") = none
    ∧ parse_nl_to_action (str "say hi") = some (.tts (str "hi")) := by
  exact ⟨rfl, rfl, rfl⟩

/-- Claim C4 amended.  `parse_nl_to_action` is a pure deterministic
function of the trimmed input: inputs with equal trims parse
identically (the case-insensitivity part of the claim is dropped, as
forced by the counterexample). -/
theorem c4_parse_depends_only_on_trim (s t : Str) (h : trim s = trim t) :
    parse_nl_to_action s = parse_nl_to_action t := by
  unfold parse_nl_to_action
  rw [h]

theorem c4_parse_depends_only_on_trim_witness :
    trim (str "  say hi ") = trim (str "say hi")
    ∧ parse_nl_to_action (str "  say hi ") = parse_nl_to_action (str "say hi") :=
  ⟨by decide, c4_parse_depends_only_on_trim (str "  say hi ") (str "say hi") (by decide)⟩

/-- Claim C7.  With the Spotify controller absent or unconfigured,
`pause spotify` returns the `spotify_pause` Result carrying the
`{"error": "spotify not configured"}` payload and the spoken summary
`Can't pause — Spotify not configured.`, with the profile untouched; the
only side effect is the source's `open_app("https://open.spotify.com")`
call made on that branch. -/
theorem c7_pause_spotify_not_configured (n : Nat) (cfg : Config)
    (prof : Profile) (h : cfg.spotConfigured = false) :
    nl_execute_from_text (n + 1) cfg prof (str "pause spotify") =
      some ({action := some (str "spotify_pause"),
             result := some (.errMsg (str "spotify not configured")),
             assistant := some msgCantPause}, prof,
            [.openApp (str "https://open.spotify.com")]) := by
  show nl_execute_core cfg _ prof (str "pause spotify") = _
  unfold nl_execute_core
  norm_num [Action.kindStr, Action.isRunShellBlocked, whitelist_get,
    show parse_nl_to_action (str "pause spotify") = some .spotify_pause from rfl]
  unfold exec_action
  rw [h]
  rfl

theorem c7_pause_spotify_not_configured_witness :
    cfgD.spotConfigured = false
    ∧ nl_execute_from_text 1 cfgD profD (str "pause spotify") =
      some ({action := some (str "spotify_pause"),
             result := some (.errMsg (str "spotify not configured")),
             assistant := some msgCantPause}, profD,
            [.openApp (str "https://open.spotify.com")]) :=
  ⟨rfl, c7_pause_spotify_not_configured 0 cfgD profD rfl⟩

/-- Claim C10.  Any text the grammar parses as a `click` action is
whitelisted, yet dispatching it always produces the execution-error
Result (the dispatcher calls `AGENT.click(x, y)`, a method `RobotHead`
never defines, so `AttributeError` is raised and caught by the
`except Exception` handler): no click is performed, no effect is emitted
and the profile — in particular `action_counts["click"]` — is unchanged. -/
theorem c10_click_always_execution_error (n : Nat) (cfg : Config)
    (prof : Profile) (text : Str) (x y : Nat)
    (h : parse_nl_to_action text = some (.click x y)) :
    nl_execute_from_text (n + 1) cfg prof text =
      some ({error := some (str "execution error"), detail := some clickErrMsg,
             assistant := some (msgErrExec clickErrMsg)}, prof, []) := by
  have hne : ¬(trim text = []) := by
    intro h0
    rw [← parse_trim, h0, parse_nil] at h
    cases h
  show nl_execute_core cfg _ prof text = _
  unfold nl_execute_core
  rw [if_neg hne, parse_trim, h]
  norm_num [Action.kindStr, Action.isRunShellBlocked, whitelist_get]
  rfl

theorem c10_click_always_execution_error_witness :
    parse_nl_to_action (str "click 100, 200") = some (.click 100 200)
    ∧ nl_execute_from_text 1 cfgD profD (str "click 100, 200") =
      some ({error := some (str "execution error"), detail := some clickErrMsg,
             assistant := some (msgErrExec clickErrMsg)}, profD, []) :=
  ⟨rfl, c10_click_always_execution_error 0 cfgD profD (str "click 100, 200")
    100 200 rfl⟩

/-- Claim C3.  For any parsed action: if its kind is not whitelisted the
dispatch is the `not_whitelisted` chat fallback with no executor effect
(vacuously — `kind_whitelisted` shows the grammar only emits whitelisted
kinds, so this guard is dead code); and if it is a `run_shell` whose
params lack `allowed=true`, the dispatch is the `unsafe_shell` chat
fallback with no executor effect — the conversational responder cannot
re-enter the dispatcher there because text parsed as `run_shell` starts
with `run`, never with `open `/`launch `/`start `. -/
theorem c3_fallback_guards_invoke_no_executor (n : Nat) (cfg : Config)
    (prof : Profile) (text : Str) (a : Action)
    (h : parse_nl_to_action text = some a) :
    (whitelist_get a.kindStr = false →
      ∃ r p2, nl_execute_from_text (n + 1) cfg prof text =
        some ({action := some (str "chat_fallback"),
               reason := some (str "not_whitelisted"),
               response := some r, assistant := some r}, p2, []))
    ∧ (a.isRunShellBlocked = true →
      ∃ r p2, nl_execute_from_text (n + 1) cfg prof text =
        some ({action := some (str "chat_fallback"),
               reason := some (str "unsafe_shell"),
               response := some r, assistant := some r}, p2, [])) := by
  have hne : ¬(trim text = []) := by
    intro h0
    rw [← parse_trim, h0, parse_nil] at h
    cases h
  constructor
  · intro hwl
    exact absurd (kind_whitelisted a) (by simp [hwl])
  · intro hrs
    obtain ⟨ps, rfl⟩ : ∃ ps, a = .run_shell ps := by
      cases a <;> first
        | exact ⟨_, rfl⟩
        | simp [Action.isRunShellBlocked] at hrs
    have hrun := parse_run_shell_inv text ps h
    have hols := not_ols_of_trim_run (toLower (trim text)) hrun
    obtain ⟨r, hchat⟩ := chat_single_answer_no_rec cfg
      (nl_execute_from_text n cfg) prof (trim text) hne
      (by rw [trim_trim]; exact hols.1)
      (by rw [trim_trim]; exact hols.2.1)
      (by rw [trim_trim]; exact hols.2.2)
    refine ⟨r, applyName prof (try_extract_name (trim text)), ?_⟩
    show nl_execute_core cfg _ prof text = _
    unfold nl_execute_core
    rw [if_neg hne, parse_trim, h]
    norm_num [Action.kindStr, whitelist_get, hrs,
      show (str "run_shell") ∈ ACTION_KEYS from by decide]
    rw [hchat]

theorem c3_fallback_guards_invoke_no_executor_witness :
    parse_nl_to_action (str "run del me") =
      some (.run_shell ⟨Sum.inr (str "del me"), none, some false⟩)
    ∧ (Action.run_shell ⟨Sum.inr (str "del me"), none, some false⟩).isRunShellBlocked = true
    ∧ ∃ r p2, nl_execute_from_text 1 cfgD profD (str "run del me") =
        some ({action := some (str "chat_fallback"),
               reason := some (str "unsafe_shell"),
               response := some r, assistant := some r}, p2, []) :=
  ⟨rfl, rfl,
    (c3_fallback_guards_invoke_no_executor 0 cfgD profD (str "run del me")
      (.run_shell ⟨Sum.inr (str "del me"), none, some false⟩) rfl).2 rfl⟩

/-- Claim C8 counterexample.  `press call me Bob` contains a name phrase
(`try_extract_and_save_name` would extract `Bob`), but it parses as a
whitelisted `press` action and `nl_execute_from_text` dispatches it to
the key-press executor without ever running name extraction: the
persisted profile name stays `none`.  (Only the voice-capture loop runs
the extraction before dispatching, and the chat paths run it inside
`chat_single_answer`; the typed front-end path calls
`nl_execute_from_text` directly.) -/
theorem c8_typed_action_dispatch_skips_name_extraction :
    try_extract_name (str "press call me Bob") = some (str "Bob")
    ∧ (nl_execute_from_text 1 cfgD profD (str "press call me Bob")).map
        (fun x => (x.1.action, x.2.1.name, x.2.2)) =
      some (some (str "press"), none, [.pressKey (str "call me Bob")]) := by
  exact ⟨rfl, rfl⟩

/-- Claim C8 amended.  Name extraction does run — and its result is
persisted — on every dispatch that reaches the conversational responder:
on a parse miss (that does not re-enter the dispatcher via the
`open `/`launch `/`start ` chat branch) the returned profile is exactly
the input profile with the extracted name applied. -/
theorem c8_name_extraction_runs_on_chat_path (n : Nat) (cfg : Config)
    (prof : Profile) (text : Str)
    (hparse : parse_nl_to_action text = none) (hne : ¬(trim text = []))
    (h1 : startsWithS (toLower (trim text)) (str "open ") = false)
    (h2 : startsWithS (toLower (trim text)) (str "launch ") = false)
    (h3 : startsWithS (toLower (trim text)) (str "start ") = false) :
    ∃ r, nl_execute_from_text (n + 1) cfg prof text =
      some ({action := some (str "chat"), response := some r,
             assistant := some r},
            applyName prof (try_extract_name (trim text)), []) := by
  obtain ⟨r, hchat⟩ := chat_single_answer_no_rec cfg
    (nl_execute_from_text n cfg) prof (trim text) hne
    (by rw [trim_trim]; exact h1)
    (by rw [trim_trim]; exact h2)
    (by rw [trim_trim]; exact h3)
  refine ⟨r, ?_⟩
  show nl_execute_core cfg _ prof text = _
  unfold nl_execute_core
  rw [if_neg hne, parse_trim, hparse, hchat]

theorem c8_name_extraction_runs_on_chat_path_witness :
    parse_nl_to_action (str "hello my name is Bob") = none
    ∧ ¬(trim (str "hello my name is Bob") = [])
    ∧ try_extract_name (trim (str "hello my name is Bob")) = some (str "Bob")
    ∧ ∃ r, nl_execute_from_text 1 cfgD profD (str "hello my name is Bob") =
        some ({action := some (str "chat"), response := some r,
               assistant := some r},
              applyName profD (try_extract_name (trim (str "hello my name is Bob"))),
              []) :=
  ⟨rfl, by decide, rfl,
    c8_name_extraction_runs_on_chat_path 0 cfgD profD (str "hello my name is Bob")
      rfl (by decide) rfl rfl rfl⟩

/-- Claim C2 (code bug).  `open blah` matches no grammar rule, starts
with `open `, and extracts no name, so `nl_execute_from_text` delegates
to `chat_single_answer`, whose rule-based fallback (no pico LLM
configured) calls `nl_execute_from_text` right back on the same text:
the mutual recursion never bottoms out (the fuel semantics returns
`none` — fuel exhaustion — at every fuel), so the Python source exceeds
the recursion limit and lets `RecursionError` escape to the caller
instead of returning a `chat` Result. -/
theorem c2_parse_miss_open_text_never_terminates :
    parse_nl_to_action (str "open blah") = none
    ∧ startsWithS (toLower (trim (str "open blah"))) (str "open ") = true
    ∧ ∀ (n : Nat) (prof : Profile),
        nl_execute_from_text n cfgD prof (str "open blah") = none := by
  refine ⟨rfl, rfl, ?_⟩
  intro n
  induction n with
  | zero => intro prof; rfl
  | succ n ih =>
    intro prof
    have hchat : chat_single_answer cfgD (nl_execute_from_text n cfgD) prof
        (str "open blah") = none := by
      have h2 : ∀ (p : Profile),
          chat_single_answer cfgD (nl_execute_from_text n cfgD) p
            (str "open blah") =
          match nl_execute_from_text n cfgD p (str "open blah") with
          | none => none
          | some (res, prof2, fx) =>
            some (pickReply res,
              (match res.action with
               | some k => if k = [] then prof2 else record_action prof2 k
               | none => prof2), fx) := fun p => rfl
      rw [h2 prof, ih prof]
    have hstep :
        nl_execute_from_text (n + 1) cfgD prof (str "open blah") =
        match chat_single_answer cfgD (nl_execute_from_text n cfgD) prof
            (str "open blah") with
        | none => none
        | some (r, p2, fx) =>
          some ({action := some (str "chat"), response := some r,
                 assistant := some r}, p2, fx) := rfl
    rw [hstep, hchat]

/-- Modelled from the claim's words for the last matching tier: "within a
tier the returned bookmark is the first matching item in source order",
i.e. the first bookmark (in source order) matching any whitespace token
of the query. -/
def spec_token_tier_first (bs : List Bookmark) (ql : Str) : Option Bookmark :=
  bs.find? (fun b =>
    (pySplit ql).any (fun p => isSubstr p (toLower (b.name ++ [' '] ++ b.url))))

/-- Claim C6 counterexample.  Bookmarks `[b, a]` (in that source order)
and query `a b`: no exact/title/URL tier hits, and in the token tier the
first bookmark `b` matches the query token `b`, so the claim's
first-in-source-order rule selects `b` — but the code iterates tokens
first and returns `a`, the first bookmark matching the earliest
productive token `a`. -/
theorem c6_token_tier_counterexample :
    (find_and_open_bookmark (some [⟨str "b", []⟩, ⟨str "a", []⟩]) []
        (str "a b")).1 = .found .fuzzy ⟨str "a", []⟩
    ∧ spec_token_tier_first [⟨str "b", []⟩, ⟨str "a", []⟩] (str "a b") =
        some ⟨str "b", []⟩
    ∧ (Bookmark.mk (str "a") [] ≠ Bookmark.mk (str "b") []) := by
  exact ⟨rfl, rfl, by decide⟩

/-- Claim C6 amended.  For every bookmark list and non-empty normalised
query, the selection is by strict tier priority — exact title, title
substring, URL substring, then token tier — and the first three tiers
return the first matching bookmark in source order (`List.find?`); in
the token tier the whitespace tokens of the query are tried in order and
the result is the first bookmark in source order matching the earliest
token that matches any bookmark. -/
theorem c6_tiered_matching_amended (bs : List Bookmark) (e q : Str)
    (hq : ¬(trim (toLower q) = [])) :
    find_and_open_bookmark (some bs) e q =
      (match bs.find? (fun b => toLower b.name == trim (toLower q)) with
       | some b => (.found .exact_title b, [.openApp b.url])
       | none =>
         match bs.find? (fun b => isSubstr (trim (toLower q)) (toLower b.name)) with
         | some b => (.found .title_contains b, [.openApp b.url])
         | none =>
           match bs.find? (fun b => isSubstr (trim (toLower q)) (toLower b.url)) with
           | some b => (.found .url_contains b, [.openApp b.url])
           | none =>
             match (pySplit (trim (toLower q))).findSome? (fun p =>
                 bs.find? (fun b =>
                   isSubstr p (toLower (b.name ++ [' '] ++ b.url)))) with
             | some b => (.found .fuzzy b, [.openApp b.url])
             | none => (.notFound (str "no match"), [])) := by
  unfold find_and_open_bookmark
  dsimp only
  rw [if_neg hq]
  simp only [head?_filter]

theorem c6_tiered_matching_amended_witness :
    ¬(trim (toLower (str "github")) = [])
    ∧ find_and_open_bookmark
        (some [⟨str "GitHub", str "https://github.com"⟩]) [] (str "github") =
      (match [Bookmark.mk (str "GitHub") (str "https://github.com")].find?
          (fun b => toLower b.name == trim (toLower (str "github"))) with
       | some b => (.found .exact_title b, [.openApp b.url])
       | none =>
         match [Bookmark.mk (str "GitHub") (str "https://github.com")].find?
             (fun b => isSubstr (trim (toLower (str "github"))) (toLower b.name)) with
         | some b => (.found .title_contains b, [.openApp b.url])
         | none =>
           match [Bookmark.mk (str "GitHub") (str "https://github.com")].find?
               (fun b => isSubstr (trim (toLower (str "github"))) (toLower b.url)) with
           | some b => (.found .url_contains b, [.openApp b.url])
           | none =>
             match (pySplit (trim (toLower (str "github")))).findSome? (fun p =>
                 [Bookmark.mk (str "GitHub") (str "https://github.com")].find?
                   (fun b => isSubstr p (toLower (b.name ++ [' '] ++ b.url)))) with
             | some b => (.found .fuzzy b, [.openApp b.url])
             | none => (.notFound (str "no match"), [])) :=
  ⟨by decide,
    c6_tiered_matching_amended [⟨str "GitHub", str "https://github.com"⟩] []
      (str "github") (by decide)⟩

end Saint
